import Mathlib

/-
  Verification of the Courier Management System HTTP layer.

  The two route modules (server/routes/couriers.js and server/routes/reports.js)
  are embedded shallowly: request bodies are JSON values with JavaScript
  truthiness, every database statement a handler issues is recorded in a trace
  list, stored routines (which live in the database, outside this repository)
  are modelled as oracle parameters of type Except DbError _, and the direct
  SQL queries of the delete, logs and report handlers are executed against an
  explicit table state.
-/

namespace CourierMS

/-- JSON values, as they appear in HTTP request and response bodies. -/
inductive Json where
  | null : Json
  | bool (b : Bool) : Json
  | num (n : Int) : Json
  | str (s : String) : Json
  | arr (elems : List Json) : Json
  | obj (fields : List (String × Json)) : Json

/-- Field lookup on a JSON object; none on any non-object or absent key. -/
def Json.get (j : Json) (key : String) : Option Json :=
  match j with
  | .obj fields => fields.lookup key
  | _ => none

/-- JavaScript truthiness of a possibly absent body field: undefined, null,
false, 0 and the empty string are falsy, everything else is truthy. -/
def truthy : Option Json → Bool
  | none => false
  | some .null => false
  | some (.bool b) => b
  | some (.num n) => decide (n ≠ 0)
  | some (.str s) => decide (s ≠ "")
  | some (.arr _) => true
  | some (.obj _) => true

/-- A database driver error, as caught by the catch blocks. -/
structure DbError where
  message : String

/-- Every database statement a handler can issue, with the parameters passed. -/
inductive DbCall where
  | callAddCourierOrder (customer_id admin_id bill_number pickup_address delivery_address : Json)
  | callUpdateCourierStatus (id : Nat) (new_status changed_by_admin_email : Json)
  | selectGetCourierStatus (id : Nat)
  | selectDeliveryHistory (id : Nat)
  | selectCourierAudit (id : Nat)
  | selectCourierById (id : Nat)
  | deleteFromCouriers (id : Nat)

/-- An HTTP response: status code plus JSON body. -/
structure HttpResponse where
  status : Nat
  body : Json

/-- Request body of POST /couriers/add; each field may be absent. -/
structure AddBody where
  customer_id : Option Json
  admin_id : Option Json
  bill_number : Option Json
  pickup_address : Option Json
  delivery_address : Option Json

/-- The single stored-procedure call the create handler issues, with the five
fields in the order they are passed to CALL AddCourierOrder. -/
def addCall (body : AddBody) : DbCall :=
  DbCall.callAddCourierOrder (body.customer_id.getD .null) (body.admin_id.getD .null)
    (body.bill_number.getD .null) (body.pickup_address.getD .null)
    (body.delivery_address.getD .null)

/-- Handler of POST /couriers/add. The stored procedure AddCourierOrder is
external to the repository; its outcome is the oracle parameter proc (the
first result set of the CALL). Returns the response and the trace of
database statements issued. -/
def addHandler (body : AddBody) (proc : Except DbError (List Json)) :
    HttpResponse × List DbCall :=
  if !truthy body.customer_id || !truthy body.admin_id || !truthy body.bill_number
      || !truthy body.pickup_address || !truthy body.delivery_address then
    ({ status := 400,
       body := .obj [("success", .bool false), ("message", .str "All fields are required")] },
     [])
  else
    match proc with
    | .ok result =>
        ({ status := 201,
           body := .obj ([("success", .bool true),
             ("message", .str "Courier order added successfully using stored procedure")] ++
             (match result.head? with
              | some r => [("data", r)]
              | none => [])) },
         [addCall body])
    | .error e =>
        ({ status := 500,
           body := .obj [("success", .bool false),
             ("message", .str "Failed to add courier order"),
             ("error", .str e.message)] },
         [addCall body])

/-- Request body of PUT /couriers/update-status/:id. -/
structure UpdateBody where
  new_status : Option Json
  changed_by_admin_email : Option Json

/-- Handler of PUT /couriers/update-status/:id. The stored procedure
UpdateCourierStatus is external; its outcome is the oracle parameter proc.
On success the handler echoes the request data without reading stored state. -/
def updateHandler (id : Nat) (body : UpdateBody) (proc : Except DbError Unit) :
    HttpResponse × List DbCall :=
  if !truthy body.new_status || !truthy body.changed_by_admin_email then
    ({ status := 400,
       body := .obj [("success", .bool false),
         ("message", .str "Status and admin email are required")] },
     [])
  else
    let call := DbCall.callUpdateCourierStatus id (body.new_status.getD .null)
      (body.changed_by_admin_email.getD .null)
    match proc with
    | .ok _ =>
        ({ status := 200,
           body := .obj [("success", .bool true),
             ("message", .str "Courier status updated successfully using stored procedure (Trigger fired automatically)"),
             ("courier_id", .num id),
             ("new_status", body.new_status.getD .null)] },
         [call])
    | .error e =>
        ({ status := 500,
           body := .obj [("success", .bool false),
             ("message", .str "Failed to update courier status"),
             ("error", .str e.message)] },
         [call])

/-- Handler of GET /couriers/status/:id. The database function
GetCourierStatus is external; the oracle parameter q is the row set of
SELECT GetCourierStatus(?) AS status, each row holding a nullable status.
The 404 branch covers rows.length === 0 and rows[0].status === null. -/
def getStatusHandler (id : Nat) (q : Except DbError (List (Option String))) :
    HttpResponse × List DbCall :=
  let call := DbCall.selectGetCourierStatus id
  match q with
  | .error e =>
      ({ status := 500,
         body := .obj [("success", .bool false),
           ("message", .str "Failed to get courier status"),
           ("error", .str e.message)] },
       [call])
  | .ok rows =>
      match rows with
      | [] =>
          ({ status := 404,
             body := .obj [("success", .bool false), ("message", .str "Courier not found")] },
           [call])
      | none :: _ =>
          ({ status := 404,
             body := .obj [("success", .bool false), ("message", .str "Courier not found")] },
           [call])
      | some s :: _ =>
          ({ status := 200,
             body := .obj [("success", .bool true),
               ("message", .str "Status retrieved using database function"),
               ("courier_id", .num id),
               ("status", .str s)] },
           [call])

/-- A row of the Couriers table. -/
structure Courier where
  courier_id : Nat
  customer_id : Nat
  managed_by_admin_id : Option Nat
  bill_number : String
  pickup_address : String
  delivery_address : String
  status : String
  created_at : Nat
deriving DecidableEq

/-- A row of the Users table. -/
structure User where
  user_id : Nat
  name : String
  email : String
  phone : String
deriving DecidableEq

/-- A row of the Admins table. -/
structure Admin where
  admin_id : Nat
  name : String
  email : String
deriving DecidableEq

/-- A row of the Delivery_History table. -/
structure HistoryRow where
  history_id : Nat
  courier_id : Nat
  old_status : String
  new_status : String
  changed_at : Nat
  changed_by_admin_email : String
deriving DecidableEq

/-- A row of the Courier_Audit table. -/
structure AuditRow where
  audit_id : Nat
  courier_id : Nat
  action_type : String
  old_status : String
  new_status : String
  changed_at : Nat
  admin_email : String
deriving DecidableEq

/-- The database tables the direct queries read and write. -/
structure DbState where
  couriers : List Courier
  users : List User
  admins : List Admin
  history : List HistoryRow
  audit : List AuditRow
deriving DecidableEq

/-- ORDER BY changed_at DESC on Delivery_History rows. -/
def newerFirstH (a b : HistoryRow) : Prop := b.changed_at ≤ a.changed_at

instance : DecidableRel newerFirstH := fun a b => Nat.decLe b.changed_at a.changed_at

instance : IsTotal HistoryRow newerFirstH := ⟨fun a b => Nat.le_total b.changed_at a.changed_at⟩

instance : IsTrans HistoryRow newerFirstH := ⟨fun _ _ _ h1 h2 => Nat.le_trans h2 h1⟩

/-- ORDER BY changed_at DESC on Courier_Audit rows. -/
def newerFirstA (a b : AuditRow) : Prop := b.changed_at ≤ a.changed_at

instance : DecidableRel newerFirstA := fun a b => Nat.decLe b.changed_at a.changed_at

instance : IsTotal AuditRow newerFirstA := ⟨fun a b => Nat.le_total b.changed_at a.changed_at⟩

instance : IsTrans AuditRow newerFirstA := ⟨fun _ _ _ h1 h2 => Nat.le_trans h2 h1⟩

/-- SELECT ... FROM Delivery_History WHERE courier_id = ? ORDER BY changed_at DESC -/
def deliveryHistoryQuery (db : DbState) (id : Nat) : List HistoryRow :=
  List.insertionSort newerFirstH (db.history.filter (fun h => decide (h.courier_id = id)))

/-- SELECT ... FROM Courier_Audit WHERE courier_id = ? ORDER BY changed_at DESC -/
def courierAuditQuery (db : DbState) (id : Nat) : List AuditRow :=
  List.insertionSort newerFirstA (db.audit.filter (fun a => decide (a.courier_id = id)))

/-- Response of GET /couriers/:id/logs; field names follow the JSON keys. -/
structure LogsResponse where
  status : Nat
  success : Bool
  message : String
  courier_id : Nat
  delivery_history : List HistoryRow
  audit_logs : List AuditRow
  trigger_info : String

/-- Handler of GET /couriers/:id/logs: two reads, filtered by id, newest
first; always a success response, even when both row sets are empty. -/
def logsHandler (db : DbState) (id : Nat) : LogsResponse × List DbCall :=
  ({ status := 200,
     success := true,
     message := "Logs retrieved successfully (Proof of Trigger execution)",
     courier_id := id,
     delivery_history := deliveryHistoryQuery db id,
     audit_logs := courierAuditQuery db id,
     trigger_info := "These records were automatically created by the after_courier_status_update trigger" },
   [DbCall.selectDeliveryHistory id, DbCall.selectCourierAudit id])

/-- SELECT courier_id, bill_number FROM Couriers WHERE courier_id = ? -/
def selectCourierByIdQuery (db : DbState) (id : Nat) : List Courier :=
  db.couriers.filter (fun c => decide (c.courier_id = id))

/-- Handler of DELETE /couriers/:id: existence check, then DELETE. Returns
the response, the statement trace, and the table state after the request. -/
def deleteHandler (db : DbState) (id : Nat) : HttpResponse × List DbCall × DbState :=
  match selectCourierByIdQuery db id with
  | [] =>
      ({ status := 404,
         body := .obj [("success", .bool false), ("message", .str "Courier not found")] },
       [DbCall.selectCourierById id], db)
  | c :: _ =>
      ({ status := 200,
         body := .obj [("success", .bool true),
           ("message", .str ("Courier #" ++ toString id ++ " (" ++ c.bill_number ++ ") deleted successfully")),
           ("deleted_courier", .obj [("courier_id", .num c.courier_id),
             ("bill_number", .str c.bill_number)])] },
       [DbCall.selectCourierById id, DbCall.deleteFromCouriers id],
       { db with couriers := db.couriers.filter (fun x => !decide (x.courier_id = id)) })

/-- Subquery SELECT customer_id FROM Couriers WHERE status = Delivered. -/
def deliveredCustomerIds (couriers : List Courier) : List Nat :=
  (couriers.filter (fun c => decide (c.status = "Delivered"))).map (fun c => c.customer_id)

/-- ORDER BY name on Users rows. -/
def nameLe (a b : User) : Prop := a.name ≤ b.name

instance : DecidableRel nameLe := fun a b => inferInstanceAs (Decidable (a.name ≤ b.name))

instance : IsTotal User nameLe := ⟨fun a b => le_total a.name b.name⟩

instance : IsTrans User nameLe := ⟨fun _ _ _ h1 h2 => le_trans h1 h2⟩

/-- SELECT ... FROM Users WHERE user_id IN (subquery) ORDER BY name -/
def nestedQuery (db : DbState) : List User :=
  List.insertionSort nameLe
    (db.users.filter (fun u => (deliveredCustomerIds db.couriers).contains u.user_id))

/-- Response of GET /reports/nested. -/
structure NestedResponse where
  status : Nat
  success : Bool
  message : String
  query_type : String
  description : String
  count : Nat
  data : List User

/-- Handler of GET /reports/nested. -/
def nestedHandler (db : DbState) : NestedResponse :=
  { status := 200,
    success := true,
    message := "NESTED Query executed successfully",
    query_type := "NESTED (Users with Delivered couriers)",
    description := "Finds all customers who have at least one delivered courier",
    count := (nestedQuery db).length,
    data := nestedQuery db }

/-- One output row of the aggregate report. -/
structure AggregateRow where
  status : String
  count : Nat
  unique_customers : Nat
  earliest_order : Option Nat
  latest_order : Option Nat
deriving DecidableEq

/-- The GROUP BY status group row for one status value. -/
def aggregateRowFor (couriers : List Courier) (s : String) : AggregateRow :=
  { status := s,
    count := (couriers.filter (fun c => decide (c.status = s))).length,
    unique_customers :=
      (((couriers.filter (fun c => decide (c.status = s))).map (fun c => c.customer_id)).dedup).length,
    earliest_order := ((couriers.filter (fun c => decide (c.status = s))).map (fun c => c.created_at)).min?,
    latest_order := ((couriers.filter (fun c => decide (c.status = s))).map (fun c => c.created_at)).max? }

/-- ORDER BY count DESC on aggregate rows. -/
def countDescAgg (a b : AggregateRow) : Prop := b.count ≤ a.count

instance : DecidableRel countDescAgg := fun a b => Nat.decLe b.count a.count

instance : IsTotal AggregateRow countDescAgg := ⟨fun a b => Nat.le_total b.count a.count⟩

instance : IsTrans AggregateRow countDescAgg := ⟨fun _ _ _ h1 h2 => Nat.le_trans h2 h1⟩

/-- SELECT status, COUNT, COUNT DISTINCT, MIN, MAX FROM Couriers
GROUP BY status ORDER BY count DESC -/
def aggregateQuery (db : DbState) : List AggregateRow :=
  List.insertionSort countDescAgg
    (((db.couriers.map (fun c => c.status)).dedup).map (aggregateRowFor db.couriers))

/-- Response of GET /reports/aggregate. -/
structure AggregateResponse where
  status : Nat
  success : Bool
  message : String
  query_type : String
  description : String
  count : Nat
  data : List AggregateRow

/-- Handler of GET /reports/aggregate. -/
def aggregateHandler (db : DbState) : AggregateResponse :=
  { status := 200,
    success := true,
    message := "AGGREGATE Query executed successfully",
    query_type := "AGGREGATE (GROUP BY status with COUNT)",
    description := "Groups couriers by status and counts orders",
    count := (aggregateQuery db).length,
    data := aggregateQuery db }

/-- One output row of the customer-activity report. -/
structure ActivityRow where
  user_id : Nat
  customer_name : String
  email : String
  total_orders : Nat
  order_statuses : List String
deriving DecidableEq

/-- The LEFT JOIN group row for one user: COUNT of c.courier_id counts only
joined courier rows, so a user with no orders gets total_orders = 0. -/
def activityRowFor (couriers : List Courier) (u : User) : ActivityRow :=
  { user_id := u.user_id,
    customer_name := u.name,
    email := u.email,
    total_orders := (couriers.filter (fun c => decide (c.customer_id = u.user_id))).length,
    order_statuses :=
      (((couriers.filter (fun c => decide (c.customer_id = u.user_id))).map (fun c => c.status)).dedup) }

/-- ORDER BY total_orders DESC on activity rows. -/
def countDescAct (a b : ActivityRow) : Prop := b.total_orders ≤ a.total_orders

instance : DecidableRel countDescAct := fun a b => Nat.decLe b.total_orders a.total_orders

instance : IsTotal ActivityRow countDescAct := ⟨fun a b => Nat.le_total b.total_orders a.total_orders⟩

instance : IsTrans ActivityRow countDescAct := ⟨fun _ _ _ h1 h2 => Nat.le_trans h2 h1⟩

/-- SELECT ... FROM Users LEFT JOIN Couriers GROUP BY user
HAVING total_orders > 0 ORDER BY total_orders DESC: the zero-order filter
runs after grouping, on the grouped rows. -/
def customerActivityQuery (db : DbState) : List ActivityRow :=
  List.insertionSort countDescAct
    ((db.users.map (activityRowFor db.couriers)).filter (fun r => decide (0 < r.total_orders)))

/-- Response of GET /reports/customer-activity. -/
structure ActivityResponse where
  status : Nat
  success : Bool
  message : String
  data : List ActivityRow

/-- Handler of GET /reports/customer-activity. -/
def customerActivityHandler (db : DbState) : ActivityResponse :=
  { status := 200,
    success := true,
    message := "Customer Activity Report",
    data := customerActivityQuery db }

/-- The JSON values JavaScript treats as falsy besides undefined. -/
def falsyJson : List (Option Json) :=
  [some .null, some (.bool false), some (.num 0), some (.str "")]

/-- A complete create request body. -/
def fullAddBody : AddBody :=
  { customer_id := some (.num 3), admin_id := some (.num 1),
    bill_number := some (.str "BN-1"), pickup_address := some (.str "A Street"),
    delivery_address := some (.str "B Street") }

/-- A create request body with bill_number absent. -/
def missingAddBody : AddBody :=
  { fullAddBody with bill_number := none }

/-- A complete status-update request body. -/
def fullUpdateBody : UpdateBody :=
  { new_status := some (.str "In Transit"),
    changed_by_admin_email := some (.str "admin@example.com") }

/-- A concrete courier row: id 7 with bill number BN-100, customer 3. -/
def courier7 : Courier :=
  { courier_id := 7, customer_id := 3, managed_by_admin_id := some 1,
    bill_number := "BN-100", pickup_address := "12 Pickup Road",
    delivery_address := "34 Delivery Lane", status := "Pending", created_at := 10 }

/-- A one-courier database holding only courier7. -/
def dbWitness : DbState :=
  { couriers := [courier7], users := [], admins := [], history := [], audit := [] }

/-- A concrete delivered courier row for customer 3. -/
def courierDelivered : Courier :=
  { courier_id := 8, customer_id := 3, managed_by_admin_id := none,
    bill_number := "BN-200", pickup_address := "5 Depot Way",
    delivery_address := "9 Harbor View", status := "Delivered", created_at := 20 }

/-- User 3, named Alice; has delivered courier 8 and pending courier 7. -/
def userAlice : User :=
  { user_id := 3, name := "Alice", email := "alice@example.com", phone := "111" }

/-- User 4, named Bob; has no couriers at all. -/
def userBob : User :=
  { user_id := 4, name := "Bob", email := "bob@example.com", phone := "222" }

/-- A database exercising the three reports: two users, two couriers. -/
def dbReports : DbState :=
  { couriers := [courier7, courierDelivered], users := [userBob, userAlice],
    admins := [], history := [], audit := [] }

theorem truthy_eq_false_of_falsy {v : Option Json} (h : v ∈ falsyJson) : truthy v = false := by
  simp only [falsyJson, List.mem_cons, List.not_mem_nil, or_false] at h
  rcases h with h | h | h | h <;> subst h <;> rfl

/-- Claim C1: on create, if any of the five required fields is missing the
handler answers 400 with success false and issues no database statement;
if all five are present it issues exactly one statement, CALL
AddCourierOrder with the five fields in order, and answers 201 with
success true when the procedure call succeeds. -/
theorem create_order_contract (body : AddBody) (proc : Except DbError (List Json)) :
    ((truthy body.customer_id = false ∨ truthy body.admin_id = false
        ∨ truthy body.bill_number = false ∨ truthy body.pickup_address = false
        ∨ truthy body.delivery_address = false) →
      (addHandler body proc).1.status = 400
      ∧ (addHandler body proc).1.body.get "success" = some (Json.bool false)
      ∧ (addHandler body proc).2 = [])
    ∧ ((truthy body.customer_id = true ∧ truthy body.admin_id = true
        ∧ truthy body.bill_number = true ∧ truthy body.pickup_address = true
        ∧ truthy body.delivery_address = true) →
      (addHandler body proc).2 = [addCall body]
      ∧ ∀ rows, proc = Except.ok rows →
          (addHandler body proc).1.status = 201
          ∧ (addHandler body proc).1.body.get "success" = some (Json.bool true)) := by
  constructor
  · intro h
    have hg : (!truthy body.customer_id || !truthy body.admin_id || !truthy body.bill_number
        || !truthy body.pickup_address || !truthy body.delivery_address) = true := by
      rcases h with h | h | h | h | h <;> simp [h]
    simp [addHandler, hg, Json.get, List.lookup]
  · rintro ⟨h1, h2, h3, h4, h5⟩
    have hg : (!truthy body.customer_id || !truthy body.admin_id || !truthy body.bill_number
        || !truthy body.pickup_address || !truthy body.delivery_address) = false := by
      simp [h1, h2, h3, h4, h5]
    refine ⟨?_, ?_⟩
    · cases proc <;> simp [addHandler, hg]
    · intro rows hrows
      subst hrows
      refine ⟨by simp [addHandler, hg], ?_⟩
      simp only [addHandler, hg, Bool.false_eq_true, if_false]
      cases hh : rows.head? <;> simp [Json.get, List.lookup, hh]

/-- Witness for C1 at concrete request bodies. -/
theorem create_order_contract_witness :
    (addHandler missingAddBody (Except.ok [])).1.status = 400
    ∧ (addHandler missingAddBody (Except.ok [])).2 = []
    ∧ (addHandler fullAddBody (Except.ok [])).1.status = 201
    ∧ (addHandler fullAddBody (Except.ok [])).2 = [addCall fullAddBody] := by
  refine ⟨?_, ?_, ?_, ?_⟩
  · exact ((create_order_contract missingAddBody (Except.ok [])).1
      (Or.inr (Or.inr (Or.inl rfl)))).1
  · exact ((create_order_contract missingAddBody (Except.ok [])).1
      (Or.inr (Or.inr (Or.inl rfl)))).2.2
  · exact (((create_order_contract fullAddBody (Except.ok [])).2
      ⟨rfl, rfl, rfl, rfl, rfl⟩).2 [] rfl).1
  · exact ((create_order_contract fullAddBody (Except.ok [])).2
      ⟨rfl, rfl, rfl, rfl, rfl⟩).1

/-- Claim C9: the presence checks of create and status-update use
JavaScript truthiness, so a field bound to null, false, 0 or the empty
string is rejected with 400 and no database statement exactly as an
absent field is. -/
theorem falsy_fields_rejected (body : AddBody) (ub : UpdateBody) (id : Nat)
    (proc : Except DbError (List Json)) (uproc : Except DbError Unit) :
    ((body.customer_id ∈ falsyJson ∨ body.admin_id ∈ falsyJson
        ∨ body.bill_number ∈ falsyJson ∨ body.pickup_address ∈ falsyJson
        ∨ body.delivery_address ∈ falsyJson) →
      (addHandler body proc).1.status = 400
      ∧ (addHandler body proc).1.body.get "success" = some (Json.bool false)
      ∧ (addHandler body proc).2 = [])
    ∧ ((ub.new_status ∈ falsyJson ∨ ub.changed_by_admin_email ∈ falsyJson) →
      (updateHandler id ub uproc).1.status = 400
      ∧ (updateHandler id ub uproc).1.body.get "success" = some (Json.bool false)
      ∧ (updateHandler id ub uproc).2 = []) := by
  constructor
  · intro h
    have hg : (!truthy body.customer_id || !truthy body.admin_id || !truthy body.bill_number
        || !truthy body.pickup_address || !truthy body.delivery_address) = true := by
      rcases h with h | h | h | h | h <;> simp [truthy_eq_false_of_falsy h]
    simp [addHandler, hg, Json.get, List.lookup]
  · intro h
    have hg : (!truthy ub.new_status || !truthy ub.changed_by_admin_email) = true := by
      rcases h with h | h <;> simp [truthy_eq_false_of_falsy h]
    simp [updateHandler, hg, Json.get, List.lookup]

/-- Witness for C9: customer_id = 0 and bill_number = empty string on
create, new_status = null on update, each rejected with 400 and an empty
statement trace. -/
theorem falsy_fields_rejected_witness :
    (addHandler { fullAddBody with customer_id := some (Json.num 0) } (Except.ok [])).1.status = 400
    ∧ (addHandler { fullAddBody with bill_number := some (Json.str "") } (Except.ok [])).2 = []
    ∧ (updateHandler 7 { fullUpdateBody with new_status := some Json.null } (Except.ok ())).1.status = 400
    ∧ (updateHandler 7 { fullUpdateBody with new_status := some Json.null } (Except.ok ())).2 = [] := by
  refine ⟨?_, ?_, ?_, ?_⟩
  · exact ((falsy_fields_rejected { fullAddBody with customer_id := some (Json.num 0) }
      fullUpdateBody 7 (Except.ok []) (Except.ok ())).1
      (Or.inl (by simp [falsyJson]))).1
  · exact ((falsy_fields_rejected { fullAddBody with bill_number := some (Json.str "") }
      fullUpdateBody 7 (Except.ok []) (Except.ok ())).1
      (Or.inr (Or.inr (Or.inl (by simp [falsyJson]))))).2.2
  · exact ((falsy_fields_rejected fullAddBody
      { fullUpdateBody with new_status := some Json.null } 7 (Except.ok []) (Except.ok ())).2
      (Or.inl (by simp [falsyJson]))).1
  · exact ((falsy_fields_rejected fullAddBody
      { fullUpdateBody with new_status := some Json.null } 7 (Except.ok []) (Except.ok ())).2
      (Or.inl (by simp [falsyJson]))).2.2

/-- Claim C10: the status-update handler has no not-found path: its status
code is always 200, 400 or 500 and never 404, and whenever both fields are
present and the stored routine call succeeds it answers 200 with success
true, echoing the request id and new_status, having issued only the single
CALL UpdateCourierStatus statement (no read of stored state). -/
theorem update_status_no_not_found (id : Nat) (ub : UpdateBody) (proc : Except DbError Unit) :
    (updateHandler id ub proc).1.status ≠ 404
    ∧ ((updateHandler id ub proc).1.status = 200 ∨ (updateHandler id ub proc).1.status = 400
        ∨ (updateHandler id ub proc).1.status = 500)
    ∧ (proc = Except.ok () → truthy ub.new_status = true →
        truthy ub.changed_by_admin_email = true →
        (updateHandler id ub proc).1.status = 200
        ∧ (updateHandler id ub proc).1.body.get "success" = some (Json.bool true)
        ∧ (updateHandler id ub proc).1.body.get "courier_id" = some (Json.num id)
        ∧ (updateHandler id ub proc).1.body.get "new_status" = ub.new_status
        ∧ (updateHandler id ub proc).2
            = [DbCall.callUpdateCourierStatus id (ub.new_status.getD .null)
                (ub.changed_by_admin_email.getD .null)]) := by
  refine ⟨?_, ?_, ?_⟩
  · cases h1 : truthy ub.new_status <;> cases h2 : truthy ub.changed_by_admin_email <;>
      cases proc <;> simp [updateHandler, h1, h2]
  · cases h1 : truthy ub.new_status <;> cases h2 : truthy ub.changed_by_admin_email <;>
      cases proc <;> simp [updateHandler, h1, h2]
  · intro hp h1 h2
    subst hp
    have hns : ∃ v, ub.new_status = some v := by
      cases hv : ub.new_status with
      | none => rw [hv] at h1; simp [truthy] at h1
      | some v => exact ⟨v, rfl⟩
    rcases hns with ⟨v, hv⟩
    rw [hv] at h1
    simp [updateHandler, h1, h2, Json.get, List.lookup, hv]

/-- Witness for C10 at a concrete id and body. -/
theorem update_status_no_not_found_witness :
    (updateHandler 42 fullUpdateBody (Except.ok ())).1.status = 200
    ∧ (updateHandler 42 fullUpdateBody (Except.ok ())).1.body.get "courier_id"
        = some (Json.num 42)
    ∧ (updateHandler 42 fullUpdateBody (Except.ok ())).1.status ≠ 404 := by
  refine ⟨?_, ?_, ?_⟩
  · exact ((update_status_no_not_found 42 fullUpdateBody (Except.ok ())).2.2 rfl rfl rfl).1
  · exact ((update_status_no_not_found 42 fullUpdateBody (Except.ok ())).2.2 rfl rfl rfl).2.2.1
  · exact (update_status_no_not_found 42 fullUpdateBody (Except.ok ())).1

/-- Claim C4: the status-read handler answers 404 exactly when the
function call yields no row or a row whose status is null; on a non-null
first status it answers 200 with success true, the status string, and the
requested id echoed back; a database error yields 500, not 404. -/
theorem read_status_not_found_iff (id : Nat) (rows : List (Option String)) (e : DbError) :
    ((getStatusHandler id (Except.ok rows)).1.status = 404
        ↔ (rows = [] ∨ ∃ t, rows = none :: t))
    ∧ (∀ s t, rows = some s :: t →
        (getStatusHandler id (Except.ok rows)).1.status = 200
        ∧ (getStatusHandler id (Except.ok rows)).1.body.get "success" = some (Json.bool true)
        ∧ (getStatusHandler id (Except.ok rows)).1.body.get "status" = some (Json.str s)
        ∧ (getStatusHandler id (Except.ok rows)).1.body.get "courier_id" = some (Json.num id))
    ∧ (getStatusHandler id (Except.error e)).1.status = 500 := by
  refine ⟨?_, ?_, ?_⟩
  · match rows with
    | [] => simp [getStatusHandler]
    | none :: t => simp [getStatusHandler]
    | some s :: t => simp [getStatusHandler]
  · intro s t hrows
    subst hrows
    simp [getStatusHandler, Json.get, List.lookup]
  · simp [getStatusHandler]

/-- Witness for C4: a null status row yields 404, a Delivered row yields
200 with the id echoed. -/
theorem read_status_not_found_iff_witness :
    (getStatusHandler 5 (Except.ok [none])).1.status = 404
    ∧ (getStatusHandler 5 (Except.ok [some "Delivered"])).1.status = 200
    ∧ (getStatusHandler 5 (Except.ok [some "Delivered"])).1.body.get "courier_id"
        = some (Json.num 5) := by
  refine ⟨?_, ?_, ?_⟩
  · exact (read_status_not_found_iff 5 [none] ⟨"x"⟩).1.mpr (Or.inr ⟨[], rfl⟩)
  · exact ((read_status_not_found_iff 5 [some "Delivered"] ⟨"x"⟩).2.1 "Delivered" [] rfl).1
  · exact ((read_status_not_found_iff 5 [some "Delivered"] ⟨"x"⟩).2.1 "Delivered" [] rfl).2.2.2

/-- Claim C2: deleting an id that matches no courier row answers 404 with
success false, issues only the existence-check SELECT and no DELETE
statement, and leaves the table state unchanged. -/
theorem delete_missing_id_not_found (db : DbState) (id : Nat)
    (h : ∀ c ∈ db.couriers, c.courier_id ≠ id) :
    (deleteHandler db id).1.status = 404
    ∧ (deleteHandler db id).1.body.get "success" = some (Json.bool false)
    ∧ (deleteHandler db id).2.1 = [DbCall.selectCourierById id]
    ∧ DbCall.deleteFromCouriers id ∉ (deleteHandler db id).2.1
    ∧ (deleteHandler db id).2.2 = db := by
  have hsel : selectCourierByIdQuery db id = [] := by
    simp only [selectCourierByIdQuery, List.filter_eq_nil_iff]
    intro c hc
    simp [h c hc]
  simp [deleteHandler, hsel, Json.get, List.lookup]

/-- Witness for C2: deleting id 99 from the one-courier database. -/
theorem delete_missing_id_not_found_witness :
    (deleteHandler dbWitness 99).1.status = 404
    ∧ (deleteHandler dbWitness 99).2.1 = [DbCall.selectCourierById 99]
    ∧ (deleteHandler dbWitness 99).2.2 = dbWitness := by
  refine ⟨?_, ?_, ?_⟩
  · exact (delete_missing_id_not_found dbWitness 99 (by decide)).1
  · exact (delete_missing_id_not_found dbWitness 99 (by decide)).2.2.1
  · exact (delete_missing_id_not_found dbWitness 99 (by decide)).2.2.2.2

/-- Counterexample to claim C3 as stated: deleting the existing id 7 with
bill number BN-100 does answer 200 with success true, but the response
body has no key named deleted at all — the payload key the code writes is
deleted_courier. -/
theorem delete_response_shape_counterexample :
    (deleteHandler dbWitness 7).1.status = 200
    ∧ (deleteHandler dbWitness 7).1.body.get "success" = some (Json.bool true)
    ∧ (deleteHandler dbWitness 7).1.body.get "deleted" = none := by
  exact ⟨rfl, rfl, rfl⟩

/-- Claim C3 as amended: on deleting an existing id, the success response
carries the deleted record under the key deleted_courier, as an object
with the fields courier_id and bill_number of the first matching row. -/
theorem delete_success_payload (db : DbState) (id : Nat) (c : Courier) (rest : List Courier)
    (h : selectCourierByIdQuery db id = c :: rest) :
    (deleteHandler db id).1.status = 200
    ∧ (deleteHandler db id).1.body.get "success" = some (Json.bool true)
    ∧ (deleteHandler db id).1.body.get "deleted_courier"
        = some (Json.obj [("courier_id", Json.num c.courier_id),
            ("bill_number", Json.str c.bill_number)])
    ∧ (deleteHandler db id).2.1
        = [DbCall.selectCourierById id, DbCall.deleteFromCouriers id] := by
  simp [deleteHandler, h, Json.get, List.lookup]

/-- Witness for the amended C3 at id 7, bill number BN-100. -/
theorem delete_success_payload_witness :
    (deleteHandler dbWitness 7).1.body.get "deleted_courier"
        = some (Json.obj [("courier_id", Json.num 7), ("bill_number", Json.str "BN-100")])
    ∧ (deleteHandler dbWitness 7).1.status = 200 := by
  refine ⟨?_, ?_⟩
  · exact (delete_success_payload dbWitness 7 courier7 [] rfl).2.2.1
  · exact (delete_success_payload dbWitness 7 courier7 [] rfl).1

/-- Claim C5: the logs handler issues exactly the two reads, history then
audit, each filtered by the requested id and ordered newest-first by
changed_at, and always answers 200 with success true — two empty row sets
are still a success, never a 404. -/
theorem read_logs_contract (db : DbState) (id : Nat) :
    (logsHandler db id).2 = [DbCall.selectDeliveryHistory id, DbCall.selectCourierAudit id]
    ∧ (logsHandler db id).1.status = 200
    ∧ (logsHandler db id).1.success = true
    ∧ List.Perm (logsHandler db id).1.delivery_history
        (db.history.filter (fun h => decide (h.courier_id = id)))
    ∧ List.Sorted newerFirstH (logsHandler db id).1.delivery_history
    ∧ List.Perm (logsHandler db id).1.audit_logs
        (db.audit.filter (fun a => decide (a.courier_id = id)))
    ∧ List.Sorted newerFirstA (logsHandler db id).1.audit_logs
    ∧ ((∀ h ∈ db.history, h.courier_id ≠ id) → (∀ a ∈ db.audit, a.courier_id ≠ id) →
        (logsHandler db id).1.delivery_history = []
        ∧ (logsHandler db id).1.audit_logs = []
        ∧ (logsHandler db id).1.status = 200
        ∧ (logsHandler db id).1.success = true) := by
  refine ⟨rfl, rfl, rfl, ?_, ?_, ?_, ?_, ?_⟩
  · exact List.perm_insertionSort newerFirstH _
  · exact List.sorted_insertionSort newerFirstH _
  · exact List.perm_insertionSort newerFirstA _
  · exact List.sorted_insertionSort newerFirstA _
  · intro hh ha
    have h1 : db.history.filter (fun h => decide (h.courier_id = id)) = [] := by
      simp only [List.filter_eq_nil_iff]
      intro x hx
      simp [hh x hx]
    have h2 : db.audit.filter (fun a => decide (a.courier_id = id)) = [] := by
      simp only [List.filter_eq_nil_iff]
      intro x hx
      simp [ha x hx]
    exact ⟨by simp [logsHandler, deliveryHistoryQuery, h1],
      by simp [logsHandler, courierAuditQuery, h2], rfl, rfl⟩

/-- Witness for C5: reading logs for id 7 against empty history and audit
tables yields two empty sequences and a 200 success. -/
theorem read_logs_contract_witness :
    (logsHandler dbWitness 7).1.delivery_history = []
    ∧ (logsHandler dbWitness 7).1.audit_logs = []
    ∧ (logsHandler dbWitness 7).1.status = 200
    ∧ (logsHandler dbWitness 7).2
        = [DbCall.selectDeliveryHistory 7, DbCall.selectCourierAudit 7] := by
  refine ⟨?_, ?_, ?_, ?_⟩
  · exact ((read_logs_contract dbWitness 7).2.2.2.2.2.2.2 (by decide) (by decide)).1
  · exact ((read_logs_contract dbWitness 7).2.2.2.2.2.2.2 (by decide) (by decide)).2.1
  · exact ((read_logs_contract dbWitness 7).2.2.2.2.2.2.2 (by decide) (by decide)).2.2.1
  · exact (read_logs_contract dbWitness 7).1

theorem sum_counts_dedup {α : Type} [DecidableEq α] (l : List α) :
    (l.dedup.map (fun x => (l.filter (fun y => decide (y = x))).length)).sum = l.length := by
  rw [← List.sum_map_count_dedup_eq_length l]
  apply congrArg List.sum
  apply List.map_congr_left
  intro x _
  rw [← List.countP_eq_length_filter]
  rfl

/-- Claim C6: the membership report returns exactly the users whose id is
the customer id of at least one order with status Delivered, ordered
alphabetically by name, as a 200 success. -/
theorem membership_report_correct (db : DbState) :
    (∀ u : User, u ∈ (nestedHandler db).data ↔
        u ∈ db.users ∧ ∃ c ∈ db.couriers, c.status = "Delivered" ∧ c.customer_id = u.user_id)
    ∧ List.Sorted nameLe (nestedHandler db).data
    ∧ (nestedHandler db).success = true
    ∧ (nestedHandler db).status = 200 := by
  refine ⟨?_, ?_, rfl, rfl⟩
  · intro u
    show u ∈ nestedQuery db ↔ _
    simp only [nestedQuery, List.mem_insertionSort, List.mem_filter, deliveredCustomerIds,
      List.contains, List.elem_eq_mem, List.mem_map, List.mem_filter, decide_eq_true_eq]
    constructor
    · rintro ⟨hu, c, ⟨hc, hst⟩, hid⟩
      exact ⟨hu, c, hc, hst, hid⟩
    · rintro ⟨hu, c, hc, hst, hid⟩
      exact ⟨hu, c, ⟨hc, hst⟩, hid⟩
  · exact List.sorted_insertionSort nameLe _

/-- Witness for C6: Alice (customer of delivered courier 8) is in the
report, Bob (no couriers) is not, and the rows are name-ordered. -/
theorem membership_report_correct_witness :
    userAlice ∈ (nestedHandler dbReports).data
    ∧ userBob ∉ (nestedHandler dbReports).data
    ∧ List.Sorted nameLe (nestedHandler dbReports).data := by
  refine ⟨?_, ?_, ?_⟩
  · exact ((membership_report_correct dbReports).1 userAlice).mpr
      ⟨by decide, courierDelivered, by decide, rfl, rfl⟩
  · intro h
    rcases ((membership_report_correct dbReports).1 userBob).mp h with ⟨-, c, hc, hst, hid⟩
    simp only [dbReports, List.mem_cons, List.not_mem_nil, or_false] at hc
    rcases hc with rfl | rfl
    · exact absurd hst (by decide)
    · exact absurd hid (by decide)
  · exact (membership_report_correct dbReports).2.1

/-- Claim C7: the aggregate report has exactly one row per status present
in the orders table (no duplicate statuses, and a status row exists
exactly when some order has that status), each row counting the orders of
its status, rows ordered by count descending, and the counts summing to
the total number of order rows. -/
theorem aggregate_report_correct (db : DbState) :
    ((aggregateHandler db).data.map (fun r => r.status)).Nodup
    ∧ (∀ s : String, (∃ r ∈ (aggregateHandler db).data, r.status = s)
        ↔ (∃ c ∈ db.couriers, c.status = s))
    ∧ (∀ r ∈ (aggregateHandler db).data,
        r.count = (db.couriers.filter (fun c => decide (c.status = r.status))).length)
    ∧ List.Sorted countDescAgg (aggregateHandler db).data
    ∧ ((aggregateHandler db).data.map (fun r => r.count)).sum = db.couriers.length := by
  have hperm : List.Perm (aggregateQuery db)
      ((db.couriers.map (fun c => c.status)).dedup.map (aggregateRowFor db.couriers)) :=
    List.perm_insertionSort countDescAgg _
  have hmapS : ((db.couriers.map (fun c => c.status)).dedup.map
        (aggregateRowFor db.couriers)).map (fun r => r.status)
      = (db.couriers.map (fun c => c.status)).dedup := by
    rw [List.map_map]
    exact List.map_id _
  have hpermS : List.Perm ((aggregateQuery db).map (fun r => r.status))
      ((db.couriers.map (fun c => c.status)).dedup) := by
    rw [← hmapS]
    exact hperm.map _
  refine ⟨?_, ?_, ?_, ?_, ?_⟩
  · exact hpermS.nodup_iff.mpr (List.nodup_dedup _)
  · intro s
    show (∃ r ∈ aggregateQuery db, r.status = s) ↔ _
    rw [← List.mem_map (f := fun r : AggregateRow => r.status), hpermS.mem_iff,
      List.mem_dedup, List.mem_map]
  · intro r hr
    have hr2 : r ∈ (db.couriers.map (fun c => c.status)).dedup.map
        (aggregateRowFor db.couriers) := hperm.mem_iff.mp hr
    rcases List.mem_map.mp hr2 with ⟨s, _, rfl⟩
    rfl
  · exact List.sorted_insertionSort countDescAgg _
  · have h1 : ((aggregateQuery db).map (fun r => r.count)).sum
        = (((db.couriers.map (fun c => c.status)).dedup.map
            (aggregateRowFor db.couriers)).map (fun r => r.count)).sum :=
      (hperm.map (fun r => r.count)).sum_eq
    show ((aggregateQuery db).map (fun r => r.count)).sum = _
    rw [h1, List.map_map]
    have h2 : (db.couriers.map (fun c => c.status)).dedup.map
          ((fun r : AggregateRow => r.count) ∘ aggregateRowFor db.couriers)
        = (db.couriers.map (fun c => c.status)).dedup.map
          (fun s => ((db.couriers.map (fun c => c.status)).filter
            (fun y => decide (y = s))).length) := by
      apply List.map_congr_left
      intro s _
      show (db.couriers.filter (fun c => decide (c.status = s))).length = _
      rw [← List.countP_eq_length_filter, ← List.countP_eq_length_filter, List.countP_map]
      rfl
    rw [h2, sum_counts_dedup, List.length_map]

/-- Witness for C7 on the two-courier database: counts sum to 2, the
Pending row counts correctly, and a Delivered row exists. -/
theorem aggregate_report_correct_witness :
    ((aggregateHandler dbReports).data.map (fun r => r.count)).sum = 2
    ∧ (aggregateRowFor dbReports.couriers "Pending").count
        = (dbReports.couriers.filter (fun c =>
            decide (c.status = (aggregateRowFor dbReports.couriers "Pending").status))).length
    ∧ (∃ r ∈ (aggregateHandler dbReports).data, r.status = "Delivered") := by
  refine ⟨?_, ?_, ?_⟩
  · exact ((aggregate_report_correct dbReports).2.2.2.2).trans rfl
  · exact (aggregate_report_correct dbReports).2.2.1 _ (by decide)
  · exact ((aggregate_report_correct dbReports).2.1 "Delivered").mpr
      ⟨courierDelivered, by decide, rfl⟩

/-- Claim C8: the customer-activity report never contains a zero-order
row; for each user, a row for that user is present exactly when the user
has at least one order (the zero-order filter runs on the grouped rows);
each row carries the order count of its user id; with unique user ids
there is at most one row per user; rows ordered by count descending. -/
theorem customer_activity_correct (db : DbState) :
    (∀ r ∈ (customerActivityHandler db).data, 0 < r.total_orders)
    ∧ (∀ u ∈ db.users,
        ((∃ c ∈ db.couriers, c.customer_id = u.user_id)
          ↔ activityRowFor db.couriers u ∈ (customerActivityHandler db).data))
    ∧ (∀ r ∈ (customerActivityHandler db).data,
        r.total_orders = (db.couriers.filter (fun c => decide (c.customer_id = r.user_id))).length)
    ∧ ((db.users.map (fun u => u.user_id)).Nodup →
        ((customerActivityHandler db).data.map (fun r => r.user_id)).Nodup)
    ∧ List.Sorted countDescAct (customerActivityHandler db).data := by
  refine ⟨?_, ?_, ?_, ?_, ?_⟩
  · intro r hr
    have hr2 := (List.perm_insertionSort countDescAct _).mem_iff.mp hr
    exact of_decide_eq_true (List.mem_filter.mp hr2).2
  · intro u hu
    show _ ↔ activityRowFor db.couriers u ∈ customerActivityQuery db
    rw [customerActivityQuery, List.mem_insertionSort, List.mem_filter]
    constructor
    · rintro ⟨c, hc, hcid⟩
      refine ⟨List.mem_map_of_mem _ hu, decide_eq_true ?_⟩
      show 0 < (db.couriers.filter (fun c => decide (c.customer_id = u.user_id))).length
      exact List.length_pos.mpr (List.ne_nil_of_mem
        (List.mem_filter.mpr ⟨hc, decide_eq_true hcid⟩))
    · rintro ⟨-, hpos⟩
      have hlen : 0 < (db.couriers.filter
          (fun c => decide (c.customer_id = u.user_id))).length :=
        of_decide_eq_true hpos
      rcases List.exists_mem_of_length_pos hlen with ⟨c, hc⟩
      rcases List.mem_filter.mp hc with ⟨hcm, hcid⟩
      exact ⟨c, hcm, of_decide_eq_true hcid⟩
  · intro r hr
    have hr2 := (List.perm_insertionSort countDescAct _).mem_iff.mp hr
    rcases List.mem_map.mp (List.mem_of_mem_filter hr2) with ⟨u, _, rfl⟩
    rfl
  · intro hnd
    have hQF : List.Perm ((customerActivityQuery db).map (fun r => r.user_id))
        (((db.users.map (activityRowFor db.couriers)).filter
          (fun r => decide (0 < r.total_orders))).map (fun r => r.user_id)) :=
      (List.perm_insertionSort countDescAct _).map _
    apply hQF.nodup_iff.mpr
    have hsub : List.Sublist (((db.users.map (activityRowFor db.couriers)).filter
          (fun r => decide (0 < r.total_orders))).map (fun r => r.user_id))
        ((db.users.map (activityRowFor db.couriers)).map (fun r => r.user_id)) :=
      (List.filter_sublist _).map _
    have heq : (db.users.map (activityRowFor db.couriers)).map (fun r => r.user_id)
        = db.users.map (fun u => u.user_id) := by
      rw [List.map_map]
      rfl
    exact List.Nodup.sublist hsub (heq ▸ hnd)
  · exact List.sorted_insertionSort countDescAct _

/-- Witness for C8: Alice (two orders) has her row in the report, that row
has a positive order count, and with the distinct user ids of the database
the report has no duplicate user id. -/
theorem customer_activity_correct_witness :
    activityRowFor dbReports.couriers userAlice ∈ (customerActivityHandler dbReports).data
    ∧ 0 < (activityRowFor dbReports.couriers userAlice).total_orders
    ∧ ((customerActivityHandler dbReports).data.map (fun r => r.user_id)).Nodup := by
  refine ⟨?_, ?_, ?_⟩
  · exact ((customer_activity_correct dbReports).2.1 userAlice (by decide)).mp
      ⟨courierDelivered, by decide, rfl⟩
  · exact (customer_activity_correct dbReports).1 _
      (((customer_activity_correct dbReports).2.1 userAlice (by decide)).mp
        ⟨courierDelivered, by decide, rfl⟩)
  · exact (customer_activity_correct dbReports).2.2.2.1 (by decide)

end CourierMS
